import Mathlib

/-!
Shallow embedding of the simulation core of `src/war.c` (territorial-conquest
game): the territory and player records, the dice combat resolver `atacar`
with its guard `validarAtaque`, the mission evaluator `verificarMissao`, the
standings recomputation `atualizarEstatisticasJogadores`, the win check
`verificarVencedor` and the setup distribution `distribuirTerritorios`.

The C program draws randomness from `rand()`; here every operation that
draws takes an explicit stream `rng : Nat → Nat` of raw draws together with
a cursor `k : Nat`, and returns the advanced cursor, so that "no dice are
drawn" is visible as the cursor coming back unchanged.  C `int` fields are
embedded as `Int` (troop counts stay far below 2^31 in every modelled
operation, so wrap-around is immaterial); C strings are `String`.  The one
place `war.c` divides (`atacante->tropas / 2`) is only reached with
`tropas ≥ 2`, where C truncating division and Lean division agree.
-/

/-- `Territorio` (src/war.c:48-53): name, owner name, faction color, troops. -/
structure Territorio where
  nome : String
  dono : String
  cor : String
  tropas : Int
  deriving DecidableEq, Repr

/-- `Jogador` (src/war.c:65-71).  The C `missao` field is a possibly NULL
`char *`; `none` stands for NULL. -/
structure Jogador where
  nome : String
  cor : String
  missao : Option String
  ativo : Bool
  territoriosControlados : Int
  deriving DecidableEq, Repr

/-- `simularDado` (src/war.c:503-505): `(rand() % 6) + 1`, the raw `rand()`
draw passed in. -/
def simularDado (r : Nat) : Nat := r % 6 + 1

/-- `atacar` (src/war.c:521-590).  Returns the C function result together
with the updated attacker, the updated defender and the advanced rng cursor
(two draws on a resolved battle, none on a rejected one). -/
def atacar (atacante defensor : Territorio) (rng : Nat → Nat) (k : Nat) :
    Bool × Territorio × Territorio × Nat :=
  if atacante.tropas ≤ 1 then
    (false, atacante, defensor, k)
  else
    let dadoAtacante := simularDado (rng k)
    let dadoDefensor := simularDado (rng (k + 1))
    if dadoAtacante > dadoDefensor then
      let metade := atacante.tropas / 2
      let tropasTranferidas := if metade = 0 then 1 else metade
      (true,
        { atacante with tropas := atacante.tropas - tropasTranferidas },
        { defensor with
            cor := atacante.cor
            dono := atacante.dono
            tropas := tropasTranferidas },
        k + 2)
    else if dadoDefensor > dadoAtacante then
      (false,
        if atacante.tropas > 1 then
          { atacante with tropas := atacante.tropas - 1 }
        else atacante,
        defensor,
        k + 2)
    else
      (false, atacante, defensor, k + 2)

/-- `validarAtaque` (src/war.c:1162-1185): same color, then troop check. -/
def validarAtaque (atacante defensor : Territorio) : Bool :=
  if atacante.cor == defensor.cor then false
  else if atacante.tropas ≤ 1 then false
  else true

/-- The combat step of `executarBatalhaMultiplayer` (src/war.c:1360-1367):
`validarAtaque` gates every call of `atacar` issued by the game loop; a
rejected request leaves both territories untouched and draws no dice. -/
def executarAtaqueValidado (atacante defensor : Territorio) (rng : Nat → Nat) (k : Nat) :
    Bool × Territorio × Territorio × Nat :=
  if validarAtaque atacante defensor then
    atacar atacante defensor rng k
  else
    (false, atacante, defensor, k)

/-- Whether `agulha` is an initial segment of `palheiro` (character lists). -/
def listaPrefixo : List Char → List Char → Bool
  | [], _ => true
  | _ :: _, [] => false
  | c :: cs, h :: hs => c == h && listaPrefixo cs hs

/-- Whether `agulha` occurs contiguously inside the character list. -/
def ocorreEm (agulha : List Char) : List Char → Bool
  | [] => listaPrefixo agulha []
  | h :: hs => listaPrefixo agulha (h :: hs) || ocorreEm agulha hs

/-- C `strstr(palheiro, agulha) != NULL`: the needle occurs in the haystack. -/
def strstrB (palheiro agulha : String) : Bool :=
  ocorreEm agulha.toList palheiro.toList

/-- The fixed mission table of `inicializarMissoes` (src/war.c:900-911). -/
def missoes : List String :=
  ["CONQUISTADOR: Controle pelo menos 5 territórios simultaneamente",
   "DOMINAÇÃO TOTAL: Elimine completamente 1 jogador (capture todos seus territórios)",
   "ESTRATEGISTA: Mantenha 3 territórios com mais de 5 tropas cada por 2 turnos",
   "EXPANSIONISTA: Conquiste 4 territórios em sequência sem perder nenhum",
   "GENERAL SUPREMO: Acumule mais de 30 tropas distribuídas em seus territórios",
   "LIBERTADOR: Conquiste territórios de pelo menos 3 jogadores diferentes",
   "FORTALEZA: Defenda com sucesso 5 ataques consecutivos sem perder território",
   "IMPERADOR: Controle mais da metade de todos os territórios do mapa"]

/-- The mission string `missoes[7]`, the Emperor mission. -/
def missaoImperador : String := missoes.getD 7 ""

/-- `territoriosControlados` accumulator of `verificarMissao`
(src/war.c:973-981): territories whose color matches the player color. -/
def contarControlados (mapa : List Territorio) (corJogador : String) : Nat :=
  (mapa.filter fun t => t.cor == corJogador).length

/-- `tropasTotais` accumulator of `verificarMissao` (src/war.c:973-981). -/
def somarTropas (mapa : List Territorio) (corJogador : String) : Int :=
  ((mapa.filter fun t => t.cor == corJogador).map Territorio.tropas).sum

/-- `territoriosComMais5Tropas` accumulator of `verificarMissao`
(src/war.c:973-981). -/
def contarFortes (mapa : List Territorio) (corJogador : String) : Nat :=
  (mapa.filter fun t => t.cor == corJogador && decide (t.tropas > 5)).length

/-- `verificarMissao` (src/war.c:962-1002): substring dispatch over the
mission text.  The C guard `tamanho <= 0` is the emptiness test on the map
list; the NULL-pointer guards have no analogue on Lean values. -/
def verificarMissao (missao : String) (mapa : List Territorio) (corJogador : String) : Bool :=
  if mapa.length = 0 then false
  else if strstrB missao "CONQUISTADOR" then
    decide (contarControlados mapa corJogador ≥ 5)
  else if strstrB missao "GENERAL SUPREMO" then
    decide (somarTropas mapa corJogador > 30)
  else if strstrB missao "ESTRATEGISTA" then
    decide (contarFortes mapa corJogador ≥ 3)
  else if strstrB missao "IMPERADOR" then
    decide (contarControlados mapa corJogador > mapa.length / 2)
  else if strstrB missao "EXPANSIONISTA" then
    decide (contarControlados mapa corJogador ≥ 4)
  else false

/-- First loop of `atualizarEstatisticasJogadores` (src/war.c:1229-1231):
every counter back to zero. -/
def zerarContadores (jogadores : List Jogador) : List Jogador :=
  jogadores.map fun j => { j with territoriosControlados := 0 }

/-- Inner loop of `atualizarEstatisticasJogadores` (src/war.c:1235-1240):
the first player whose color matches gets the increment, then `break`. -/
def incrementarPrimeiro : List Jogador → String → List Jogador
  | [], _ => []
  | j :: resto, cor =>
    if j.cor == cor then
      { j with territoriosControlados := j.territoriosControlados + 1 } :: resto
    else
      j :: incrementarPrimeiro resto cor

/-- Second loop of `atualizarEstatisticasJogadores` (src/war.c:1234-1241):
one `incrementarPrimeiro` per territory. -/
def contarPorCor (jogadores : List Jogador) (mapa : List Territorio) : List Jogador :=
  mapa.foldl (fun js t => incrementarPrimeiro js t.cor) jogadores

/-- Third loop of `atualizarEstatisticasJogadores` (src/war.c:1244-1249):
an active player left with zero territories becomes inactive. -/
def marcarEliminados (jogadores : List Jogador) : List Jogador :=
  jogadores.map fun j =>
    if j.territoriosControlados == 0 && j.ativo then { j with ativo := false } else j

/-- `atualizarEstatisticasJogadores` (src/war.c:1227-1250). -/
def atualizarEstatisticasJogadores (jogadores : List Jogador) (mapa : List Territorio) :
    List Jogador :=
  marcarEliminados (contarPorCor (zerarContadores jogadores) mapa)

/-- Win condition of one player in `verificarVencedor` (src/war.c:1263-1264):
active, mission not NULL, and the mission holds for the player color. -/
def vence (mapa : List Territorio) (j : Jogador) : Bool :=
  j.ativo &&
    match j.missao with
    | some m => verificarMissao m mapa j.cor
    | none => false

/-- The index scan of `verificarVencedor` (src/war.c:1262-1269), carrying the
current index. -/
def verificarVencedorAux (mapa : List Territorio) : Nat → List Jogador → Int
  | _, [] => -1
  | i, j :: resto =>
    if vence mapa j then (i : Int) else verificarVencedorAux mapa (i + 1) resto

/-- `verificarVencedor` (src/war.c:1261-1270): index of the winner, else -1. -/
def verificarVencedor (jogadores : List Jogador) (mapa : List Territorio) : Int :=
  verificarVencedorAux mapa 0 jogadores

/-- Position of the first roster player whose mission holds, written from the
specification words ("first player in roster order whose mission evaluates
true is the winner") to be compared with `verificarVencedor`. -/
def primeiroVencedor (mapa : List Territorio) : List Jogador → Option Nat
  | [] => none
  | j :: resto =>
    if vence mapa j then some 0
    else (primeiroVencedor mapa resto).map (fun n => n + 1)

/-- `distribuirTerritorios` (src/war.c:1195-1217): territory `i` goes to
player `i % numJogadores` (color and owner name copied over) with
`(rand() % 5) + 2` initial troops.  The out-of-range default of `getD` is
never read when the player list is nonempty. -/
def distribuirTerritorios (jogadores : List Jogador) (rng : Nat → Nat) :
    Nat → List Territorio → List Territorio
  | _, [] => []
  | i, t :: resto =>
    let jogadorAtual := jogadores.getD (i % jogadores.length) ⟨"", "", none, false, 0⟩
    { t with
        cor := jogadorAtual.cor
        dono := jogadorAtual.nome
        tropas := ((rng i % 5 + 2 : Nat) : Int) } ::
      distribuirTerritorios jogadores rng (i + 1) resto

/-- Concrete attacker used by the witness examples. -/
def territorioAzul : Territorio := ⟨"Alfa", "Ana", "Azul", 6⟩

/-- Concrete defender used by the witness examples. -/
def territorioVermelho : Territorio := ⟨"Beta", "Bruno", "Vermelho", 2⟩

/-- Second blue territory, for the friendly-fire example. -/
def territorioAzulDois : Territorio := ⟨"Gama", "Ana", "Azul", 3⟩

/-- Territory with a single troop, for the rejection example. -/
def territorioFraco : Territorio := ⟨"Delta", "Davi", "Verde", 1⟩

/-- Concrete player used by the witness examples. -/
def jogadorVermelho : Jogador := ⟨"Paula", "Vermelho", some missaoImperador, true, 0⟩

/-- Second concrete player used by the witness examples. -/
def jogadorAzul : Jogador := ⟨"Quim", "Azul", none, true, 0⟩

/-- The territory the setup example hands to the first player. -/
def territorioDistribuido : Territorio := ⟨"Alfa", "Paula", "Vermelho", 2⟩

/-- Raw draw stream making the attacker roll 5 and the defender roll 1. -/
def rngAtacanteVence : Nat → Nat := fun n => if n = 0 then 4 else 0

/-- Raw draw stream making the attacker roll 1 and the defender roll 5. -/
def rngDefensorVence : Nat → Nat := fun n => if n = 1 then 4 else 0

/-- Raw draw stream rolling 1 on both sides. -/
def rngConstante : Nat → Nat := fun _ => 0

/-- C1: on a Conquered outcome (attacker die strictly greater) with at least
two attacker troops, the transferred amount is `max 1 (tropas / 2)`, the
attacker keeps the rest, the defender holds exactly the transfer and takes
the attacker color and owner name. -/
theorem atacar_conquista_transferencia (atacante defensor : Territorio)
    (rng : Nat → Nat) (k : Nat) (h2 : 2 ≤ atacante.tropas)
    (hdado : simularDado (rng (k + 1)) < simularDado (rng k)) :
    (atacar atacante defensor rng k).1 = true ∧
    (atacar atacante defensor rng k).2.1.tropas =
      atacante.tropas - max 1 (atacante.tropas / 2) ∧
    (atacar atacante defensor rng k).2.2.1.tropas = max 1 (atacante.tropas / 2) ∧
    (atacar atacante defensor rng k).2.2.1.cor = atacante.cor ∧
    (atacar atacante defensor rng k).2.2.1.dono = atacante.dono := by
  have hnot : ¬ atacante.tropas ≤ 1 := by omega
  have hm : ¬ atacante.tropas / 2 = 0 := by omega
  have hmax : max 1 (atacante.tropas / 2) = atacante.tropas / 2 := by omega
  simp [atacar, hnot, hdado, hm, hmax]

/-- Witness for C1: the blue six-troop territory conquers the red one and
transfers three troops. -/
theorem atacar_conquista_transferencia_exemplo :
    (atacar territorioAzul territorioVermelho rngAtacanteVence 0).1 = true ∧
    (atacar territorioAzul territorioVermelho rngAtacanteVence 0).2.1.tropas =
      territorioAzul.tropas - max 1 (territorioAzul.tropas / 2) ∧
    (atacar territorioAzul territorioVermelho rngAtacanteVence 0).2.2.1.tropas =
      max 1 (territorioAzul.tropas / 2) ∧
    (atacar territorioAzul territorioVermelho rngAtacanteVence 0).2.2.1.cor =
      territorioAzul.cor ∧
    (atacar territorioAzul territorioVermelho rngAtacanteVence 0).2.2.1.dono =
      territorioAzul.dono :=
  atacar_conquista_transferencia territorioAzul territorioVermelho rngAtacanteVence 0
    (by decide) (by decide)

/-- C4: on a Repelled outcome (defender die strictly greater) with at least
two attacker troops, the attacker loses exactly one troop and the defender
record is unchanged in every field. -/
theorem atacar_defensor_vence (atacante defensor : Territorio)
    (rng : Nat → Nat) (k : Nat) (h2 : 2 ≤ atacante.tropas)
    (hdado : simularDado (rng k) < simularDado (rng (k + 1))) :
    (atacar atacante defensor rng k).2.1 =
      { atacante with tropas := atacante.tropas - 1 } ∧
    (atacar atacante defensor rng k).2.2.1 = defensor := by
  have hnot : ¬ atacante.tropas ≤ 1 := by omega
  have hng : ¬ simularDado (rng (k + 1)) < simularDado (rng k) := by omega
  have h1 : atacante.tropas > 1 := by omega
  simp [atacar, hnot, hng, hdado, h1]

/-- Witness for C4: the red two-troop territory attacks, is repelled, and
drops to one troop while the blue defender is untouched. -/
theorem atacar_defensor_vence_exemplo :
    (atacar territorioVermelho territorioAzul rngDefensorVence 0).2.1 =
      { territorioVermelho with tropas := territorioVermelho.tropas - 1 } ∧
    (atacar territorioVermelho territorioAzul rngDefensorVence 0).2.2.1 =
      territorioAzul :=
  atacar_defensor_vence territorioVermelho territorioAzul rngDefensorVence 0
    (by decide) (by decide)

/-- C5: on equal dice (Draw) no field of either territory changes. -/
theorem atacar_empate_sem_mudanca (atacante defensor : Territorio)
    (rng : Nat → Nat) (k : Nat)
    (hdado : simularDado (rng k) = simularDado (rng (k + 1))) :
    (atacar atacante defensor rng k).2.1 = atacante ∧
    (atacar atacante defensor rng k).2.2.1 = defensor := by
  unfold atacar
  by_cases h : atacante.tropas ≤ 1
  · simp [h]
  · simp [h, hdado]

/-- Witness for C5: equal rolls of 1 leave both territories as they were. -/
theorem atacar_empate_sem_mudanca_exemplo :
    (atacar territorioAzul territorioVermelho rngConstante 0).2.1 = territorioAzul ∧
    (atacar territorioAzul territorioVermelho rngConstante 0).2.2.1 =
      territorioVermelho :=
  atacar_empate_sem_mudanca territorioAzul territorioVermelho rngConstante 0 rfl

/-- C3: an attacker holding at most one troop is rejected by `atacar` itself
and by the validated pipeline, with both territories unchanged and the rng
cursor unmoved: no dice are drawn before the rejection. -/
theorem atacar_tropas_insuficientes_rejeitado (atacante defensor : Territorio)
    (rng : Nat → Nat) (k : Nat) (h : atacante.tropas ≤ 1) :
    atacar atacante defensor rng k = (false, atacante, defensor, k) ∧
    executarAtaqueValidado atacante defensor rng k = (false, atacante, defensor, k) := by
  refine ⟨by simp [atacar, h], ?_⟩
  unfold executarAtaqueValidado validarAtaque
  by_cases hc : atacante.cor == defensor.cor
  · simp [hc]
  · simp [hc, h, atacar]

/-- Witness for C3: the single-troop green territory cannot attack. -/
theorem atacar_tropas_insuficientes_rejeitado_exemplo :
    atacar territorioFraco territorioVermelho rngConstante 0 =
      (false, territorioFraco, territorioVermelho, 0) ∧
    executarAtaqueValidado territorioFraco territorioVermelho rngConstante 0 =
      (false, territorioFraco, territorioVermelho, 0) :=
  atacar_tropas_insuficientes_rejeitado territorioFraco territorioVermelho rngConstante 0
    (by decide)

/-- C2: an attack between territories of the same faction color fails
`validarAtaque`, so the validated combat pipeline rejects it with no
mutation and no dice drawn, whatever the rng stream holds. -/
theorem ataque_mesma_cor_rejeitado (atacante defensor : Territorio)
    (rng : Nat → Nat) (k : Nat) (h : atacante.cor = defensor.cor) :
    validarAtaque atacante defensor = false ∧
    executarAtaqueValidado atacante defensor rng k = (false, atacante, defensor, k) := by
  have hb : (atacante.cor == defensor.cor) = true := by simp [h]
  constructor
  · simp [validarAtaque, hb]
  · simp [executarAtaqueValidado, validarAtaque, hb]

/-- Witness for C2: blue against blue is rejected even on a winning roll. -/
theorem ataque_mesma_cor_rejeitado_exemplo :
    validarAtaque territorioAzul territorioAzulDois = false ∧
    executarAtaqueValidado territorioAzul territorioAzulDois rngAtacanteVence 0 =
      (false, territorioAzul, territorioAzulDois, 0) :=
  ataque_mesma_cor_rejeitado territorioAzul territorioAzulDois rngAtacanteVence 0 rfl

/-- C10: any attack that passes the troop-count guard (at least two attacker
troops) leaves the attacker with at least one troop, whichever of the three
outcomes the dice produce. -/
theorem atacante_mantem_tropa (atacante defensor : Territorio)
    (rng : Nat → Nat) (k : Nat) (h2 : 2 ≤ atacante.tropas) :
    1 ≤ (atacar atacante defensor rng k).2.1.tropas := by
  have hnot : ¬ atacante.tropas ≤ 1 := by omega
  by_cases hgt : simularDado (rng (k + 1)) < simularDado (rng k)
  · have hm : ¬ atacante.tropas / 2 = 0 := by omega
    simp [atacar, hnot, hgt, hm]
    omega
  · by_cases hlt : simularDado (rng k) < simularDado (rng (k + 1))
    · have h1 : atacante.tropas > 1 := by omega
      simp [atacar, hnot, hgt, hlt, h1]
      omega
    · simp [atacar, hnot, hgt, hlt]
      omega

/-- Witness for C10: the six-troop attacker keeps at least one troop. -/
theorem atacante_mantem_tropa_exemplo :
    1 ≤ (atacar territorioAzul territorioVermelho rngAtacanteVence 0).2.1.tropas :=
  atacante_mantem_tropa territorioAzul territorioVermelho rngAtacanteVence 0 (by decide)

/-- Every territory written by `distribuirTerritorios` carries an initial
troop count in the band `[2, 6]` that `(rand() % 5) + 2` produces. -/
theorem distribuir_tropas_limite (jogadores : List Jogador) (rng : Nat → Nat) :
    ∀ (mapa : List Territorio) (k : Nat) (t : Territorio),
      t ∈ distribuirTerritorios jogadores rng k mapa →
        2 ≤ t.tropas ∧ t.tropas ≤ 6 := by
  intro mapa
  induction mapa with
  | nil =>
    intro k t ht
    simp [distribuirTerritorios] at ht
  | cons cab resto ih =>
    intro k t ht
    simp only [distribuirTerritorios, List.mem_cons] at ht
    rcases ht with h | h
    · have h5 : rng k % 5 < 5 := Nat.mod_lt _ (by norm_num)
      subst h
      refine ⟨?_, ?_⟩ <;> simp <;> omega
    · exact ih (k + 1) t h

/-- C9: troop counts never go negative: the setup distribution writes only
counts in `[2, 6]`, and every combat outcome keeps both territories at a
nonnegative count whenever they start nonnegative. -/
theorem tropas_nao_negativas (jogadores : List Jogador) (rng : Nat → Nat) (k : Nat)
    (mapa : List Territorio) (atacante defensor t : Territorio)
    (ht : t ∈ distribuirTerritorios jogadores rng k mapa)
    (ha : 0 ≤ atacante.tropas) (hd : 0 ≤ defensor.tropas) :
    (2 ≤ t.tropas ∧ t.tropas ≤ 6) ∧
    0 ≤ (atacar atacante defensor rng k).2.1.tropas ∧
    0 ≤ (atacar atacante defensor rng k).2.2.1.tropas := by
  refine ⟨distribuir_tropas_limite jogadores rng mapa k t ht, ?_⟩
  by_cases h1 : atacante.tropas ≤ 1
  · simp [atacar, h1]
    omega
  · by_cases hgt : simularDado (rng (k + 1)) < simularDado (rng k)
    · have hm : ¬ atacante.tropas / 2 = 0 := by omega
      simp [atacar, h1, hgt, hm]
      omega
    · by_cases hlt : simularDado (rng k) < simularDado (rng (k + 1))
      · have hg : atacante.tropas > 1 := by omega
        simp [atacar, h1, hgt, hlt, hg]
        omega
      · simp [atacar, h1, hgt, hlt]
        omega

/-- Witness for C9: a one-territory distribution to two players, and the
blue-against-red attack, all stay in range. -/
theorem tropas_nao_negativas_exemplo :
    (2 ≤ territorioDistribuido.tropas ∧ territorioDistribuido.tropas ≤ 6) ∧
    0 ≤ (atacar territorioAzul territorioVermelho rngConstante 0).2.1.tropas ∧
    0 ≤ (atacar territorioAzul territorioVermelho rngConstante 0).2.2.1.tropas :=
  tropas_nao_negativas [jogadorVermelho, jogadorAzul] rngConstante 0 [territorioAzul]
    territorioAzul territorioVermelho territorioDistribuido
    (by decide) (by decide) (by decide)

/-- C6: the Emperor mission holds exactly when the player controls strictly
more than half of the map, with the halving done by floor division. -/
theorem verificarMissao_imperador_iff (mapa : List Territorio) (corJogador : String) :
    verificarMissao missaoImperador mapa corJogador = true ↔
      contarControlados mapa corJogador > mapa.length / 2 := by
  have h1 : strstrB missaoImperador "CONQUISTADOR" = false := by decide
  have h2 : strstrB missaoImperador "GENERAL SUPREMO" = false := by decide
  have h3 : strstrB missaoImperador "ESTRATEGISTA" = false := by decide
  have h4 : strstrB missaoImperador "IMPERADOR" = true := by decide
  unfold verificarMissao
  rw [h1, h2, h3, h4]
  by_cases h0 : mapa.length = 0
  · have hnil : mapa = [] := List.length_eq_zero.mp h0
    subst hnil
    simp [contarControlados]
  · simp [h0]

/-- The index scan returns the first-winner position shifted by the starting
index, and -1 when no roster player wins. -/
theorem verificarVencedorAux_primeiro (mapa : List Territorio) (jogadores : List Jogador) :
    ∀ i : Nat,
      verificarVencedorAux mapa i jogadores =
        match primeiroVencedor mapa jogadores with
        | some n => ((i + n : Nat) : Int)
        | none => -1 := by
  induction jogadores with
  | nil => intro i; rfl
  | cons j resto ih =>
    intro i
    by_cases h : vence mapa j
    · simp [verificarVencedorAux, primeiroVencedor, h]
    · simp only [verificarVencedorAux, primeiroVencedor]
      rw [if_neg h, if_neg h, ih (i + 1)]
      cases hp : primeiroVencedor mapa resto with
      | none => simp
      | some n =>
        simp only [Option.map_some']
        have hsoma : i + 1 + n = i + (n + 1) := by omega
        rw [hsoma]

/-- C8: `verificarVencedor` returns the position of the first roster player
who is active, holds a mission, and whose mission evaluates true on their
own color (`vence`), and -1 when there is no such player; since `vence`
demands `ativo`, an inactive player is never returned. -/
theorem verificarVencedor_primeiro (jogadores : List Jogador) (mapa : List Territorio) :
    verificarVencedor jogadores mapa =
      match primeiroVencedor mapa jogadores with
      | some n => (n : Int)
      | none => -1 := by
  unfold verificarVencedor
  rw [verificarVencedorAux_primeiro mapa jogadores 0]
  cases primeiroVencedor mapa jogadores <;> simp

/-- A map whose function fixes every element of the list is the identity. -/
theorem map_pontual_identidade {α : Type} (l : List α) (f : α → α)
    (h : ∀ x ∈ l, f x = x) : l.map f = l := by
  induction l with
  | nil => rfl
  | cons a resto ih =>
    simp only [List.map_cons]
    rw [h a (by simp), ih fun x hx => h x (by simp [hx])]

/-- `incrementarPrimeiro` never touches a color field. -/
theorem incrementarPrimeiro_map_cor (js : List Jogador) (c : String) :
    (incrementarPrimeiro js c).map Jogador.cor = js.map Jogador.cor := by
  induction js with
  | nil => rfl
  | cons j resto ih =>
    by_cases h : j.cor == c
    · simp [incrementarPrimeiro, h]
    · simp [incrementarPrimeiro, h, ih]

/-- With pairwise-distinct player colors, bumping the first matching player
is bumping the (unique) matching player. -/
theorem incrementarPrimeiro_eq_map (c : String) :
    ∀ js : List Jogador, (js.map Jogador.cor).Nodup →
      incrementarPrimeiro js c = js.map fun j =>
        if j.cor == c then
          { j with territoriosControlados := j.territoriosControlados + 1 }
        else j := by
  intro js
  induction js with
  | nil => intro _; rfl
  | cons j resto ih =>
    intro h
    rw [List.map_cons, List.nodup_cons] at h
    obtain ⟨h1, h2⟩ := h
    by_cases hj : j.cor == c
    · have hc : j.cor = c := by simpa using hj
      have hresto : resto.map (fun x =>
          if x.cor == c then
            { x with territoriosControlados := x.territoriosControlados + 1 }
          else x) = resto := by
        apply map_pontual_identidade
        intro x hx
        have hxc : ¬ (x.cor == c) = true := by
          intro hxx
          have hxc2 : x.cor = c := by simpa using hxx
          apply h1
          rw [hc, ← hxc2]
          exact List.mem_map_of_mem Jogador.cor hx
        simp [hxc]
      simp only [incrementarPrimeiro, List.map_cons]
      rw [if_pos hj, if_pos hj, hresto]
    · simp only [incrementarPrimeiro, List.map_cons]
      rw [if_neg hj, if_neg hj, ih h2]

/-- Unfolding `contarControlados` over the head of the map. -/
theorem contarControlados_cons (t : Territorio) (resto : List Territorio) (c : String) :
    contarControlados (t :: resto) c =
      (if t.cor == c then 1 else 0) + contarControlados resto c := by
  by_cases h : t.cor == c
  · simp [contarControlados, List.filter_cons, h]
    omega
  · simp [contarControlados, List.filter_cons, h]

/-- With pairwise-distinct player colors, the counting fold of
`atualizarEstatisticasJogadores` adds to each player exactly the number of
territories of their color. -/
theorem contarPorCor_eq_map :
    ∀ (mapa : List Territorio) (js : List Jogador), (js.map Jogador.cor).Nodup →
      contarPorCor js mapa = js.map fun j =>
        { j with territoriosControlados :=
            j.territoriosControlados + (contarControlados mapa j.cor : Int) } := by
  intro mapa
  induction mapa with
  | nil =>
    intro js _
    have hid : js.map (fun j =>
        { j with territoriosControlados :=
            j.territoriosControlados + (contarControlados [] j.cor : Int) }) = js := by
      apply map_pontual_identidade
      intro j _
      cases j
      simp [contarControlados]
    rw [hid]
    rfl
  | cons t resto ih =>
    intro js h
    have hstep : contarPorCor js (t :: resto) =
        contarPorCor (incrementarPrimeiro js t.cor) resto := rfl
    rw [hstep, ih _ (by rw [incrementarPrimeiro_map_cor]; exact h),
        incrementarPrimeiro_eq_map t.cor js h, List.map_map]
    congr 1
    funext j
    by_cases hj : j.cor == t.cor
    · have hc : j.cor = t.cor := by simpa using hj
      have hsym : (t.cor == j.cor) = true := by simp [hc]
      cases j with
      | mk nome cor missao ativo tc =>
        simp only [Function.comp_apply, hj, if_true, contarControlados_cons, hsym]
        simp [Jogador.mk.injEq]
        ring
    · have hsym : ¬ (t.cor == j.cor) = true := by
        intro hx
        apply hj
        have : t.cor = j.cor := by simpa using hx
        simp [this]
      cases j with
      | mk nome cor missao ativo tc =>
        simp only [Function.comp_apply, hj, if_false, contarControlados_cons]
        simp [hsym]

/-- Zeroing counters never touches a color field. -/
theorem zerarContadores_map_cor (jogadores : List Jogador) :
    (zerarContadores jogadores).map Jogador.cor = jogadores.map Jogador.cor := by
  rw [zerarContadores, List.map_map]
  rfl

/-- C7: `atualizarEstatisticasJogadores`, on a roster with pairwise-distinct
player colors, gives every player exactly the number of territories of their
color as `territoriosControlados`, flips `ativo` to false exactly for the
active players whose count is zero, and changes nothing else. -/
theorem atualizarEstatisticas_caracterizacao (jogadores : List Jogador)
    (mapa : List Territorio) (h : (jogadores.map Jogador.cor).Nodup) :
    atualizarEstatisticasJogadores jogadores mapa = jogadores.map fun j =>
      { j with
          territoriosControlados := (contarControlados mapa j.cor : Int)
          ativo := j.ativo && !(contarControlados mapa j.cor == 0) } := by
  unfold atualizarEstatisticasJogadores
  rw [contarPorCor_eq_map mapa (zerarContadores jogadores)
      (by rw [zerarContadores_map_cor]; exact h)]
  unfold zerarContadores marcarEliminados
  rw [List.map_map, List.map_map]
  congr 1
  funext j
  cases j with
  | mk nome cor missao ativo tc =>
    by_cases h0 : contarControlados mapa cor = 0
    · cases ativo <;> simp [h0]
    · have hz : ((contarControlados mapa cor : Int) == 0) = false := by
        simp [h0]
      have hz2 : (contarControlados mapa cor == 0) = false := by
        simp [h0]
      cases ativo <;> simp [hz, hz2, h0]

/-- Witness for C7: a two-player roster over a three-territory map comes out
with counts 1 and 2 and both players still active. -/
theorem atualizarEstatisticas_caracterizacao_exemplo :
    atualizarEstatisticasJogadores [jogadorVermelho, jogadorAzul]
        [territorioAzul, territorioVermelho, territorioAzulDois] =
      [jogadorVermelho, jogadorAzul].map fun j =>
        { j with
            territoriosControlados :=
              (contarControlados [territorioAzul, territorioVermelho, territorioAzulDois]
                j.cor : Int)
            ativo := j.ativo &&
              !(contarControlados [territorioAzul, territorioVermelho, territorioAzulDois]
                  j.cor == 0) } :=
  atualizarEstatisticas_caracterizacao [jogadorVermelho, jogadorAzul]
    [territorioAzul, territorioVermelho, territorioAzulDois] (by decide)
